import Mathlib

/-!
Shallow embedding of the `regenerate-api` repository.

The repository contains two express servers and two backend services:

* `src/src/services/webServer.js` (near-duplicate: `src/unnamed/part_001`):
  a REST API plus a generic MCP-style tool router `POST /mcp/tools/call`
  dispatching over a `tools` object with three entries
  (`pinecone_query`, `pinecone_upsert`, `notion_get_page`).
* `src/mcpServer.js`: an MCP server over SSE, a module-level `transport`
  slot, a `/sse` open endpoint and a `/messages` invocation endpoint, and
  three tool registrations with zod input schemas.
* `src/unnamed/part_000` (`pineconeService.js`): `upsertVectors`,
  `queryVectors`.
* `src/src/services/notionService.js`: `getPage`.

JavaScript values are embedded as `JVal`; `undefined` and `null` are kept
distinct; async backend calls that can throw are embedded as
`Except String`, with the external services (Pinecone SDK, Notion HTTP
API, axios) supplied as function-valued fields of an `Env` record so that
theorems quantify over every adapter behaviour.
-/

/-- Embedding of the JavaScript values the repository manipulates
(JSON-like data plus `undefined`). -/
inductive JVal where
  | vUndef
  | vNull
  | vBool (b : Bool)
  | vNum (n : Int)
  | vStr (s : String)
  | vArr (xs : List JVal)
  | vObj (fields : List (String × JVal))

open JVal

mutual

/-- Structural equality test on embedded values. -/
def JVal.beq : JVal → JVal → Bool
  | .vUndef, .vUndef => true
  | .vNull, .vNull => true
  | .vBool a, .vBool b => a == b
  | .vNum a, .vNum b => a == b
  | .vStr a, .vStr b => a == b
  | .vArr a, .vArr b => JVal.beqList a b
  | .vObj a, .vObj b => JVal.beqFields a b
  | _, _ => false
termination_by structural a => a

def JVal.beqList : List JVal → List JVal → Bool
  | [], [] => true
  | a :: as, b :: bs => JVal.beq a b && JVal.beqList as bs
  | _, _ => false
termination_by structural a => a

def JVal.beqFields : List (String × JVal) → List (String × JVal) → Bool
  | [], [] => true
  | (k, a) :: as, (l, b) :: bs => k == l && JVal.beq a b && JVal.beqFields as bs
  | _, _ => false
termination_by structural a => a

end

mutual

theorem JVal.beq_iff : ∀ a b : JVal, JVal.beq a b = true ↔ a = b
  | .vUndef, b => by cases b <;> simp [JVal.beq]
  | .vNull, b => by cases b <;> simp [JVal.beq]
  | .vBool a, b => by cases b <;> simp [JVal.beq]
  | .vNum a, b => by cases b <;> simp [JVal.beq]
  | .vStr a, b => by cases b <;> simp [JVal.beq]
  | .vArr xs, b => by
      cases b <;> simp [JVal.beq]
      exact JVal.beqList_iff xs _
  | .vObj fs, b => by
      cases b <;> simp [JVal.beq]
      exact JVal.beqFields_iff fs _

theorem JVal.beqList_iff : ∀ a b : List JVal, JVal.beqList a b = true ↔ a = b
  | [], b => by cases b <;> simp [JVal.beqList]
  | a :: as, [] => by simp [JVal.beqList]
  | a :: as, b :: bs => by
      simp [JVal.beqList, JVal.beq_iff a b, JVal.beqList_iff as bs]

theorem JVal.beqFields_iff :
    ∀ a b : List (String × JVal), JVal.beqFields a b = true ↔ a = b
  | [], b => by cases b <;> simp [JVal.beqFields]
  | a :: as, [] => by simp [JVal.beqFields]
  | (k, a) :: as, (l, b) :: bs => by
      simp [JVal.beqFields, JVal.beq_iff a b, JVal.beqFields_iff as bs,
        and_assoc]

end

instance : DecidableEq JVal := fun a b =>
  decidable_of_iff (JVal.beq a b = true) (JVal.beq_iff a b)

/-- JavaScript truthiness of an embedded value (`!v` in the source tests
this): `undefined`, `null`, `false`, `0` and `""` are falsy, arrays and
objects are always truthy. -/
def truthy : JVal → Bool
  | .vUndef => false
  | .vNull => false
  | .vBool b => b
  | .vNum n => !(n == 0)
  | .vStr s => !(s == "")
  | .vArr _ => true
  | .vObj _ => true

/-- `a || b` on embedded values. -/
def jsOrV (a b : JVal) : JVal := if truthy a then a else b

/-- Property lookup: `some` when the field is present on an object,
`none` when it is absent or the value is not an object (JS property
access on such values used by this code yields `undefined`). -/
def getField : JVal → String → Option JVal
  | .vObj fields, k => fields.lookup k
  | _, _ => none

/-- Property access as JavaScript sees it: an absent field reads as
`undefined`. -/
def getFD (v : JVal) (k : String) : JVal := (getField v k).getD .vUndef

mutual

/-- JavaScript string coercion `String(v)`, as used by computed property
access `tools[name]`: arrays join their elements with `,` (with `null` and
`undefined` elements printing as the empty string), plain objects print as
`[object Object]`. -/
def jsToStr : JVal → String
  | .vUndef => "undefined"
  | .vNull => "null"
  | .vBool b => if b then "true" else "false"
  | .vNum n => toString n
  | .vStr s => s
  | .vArr xs => jsToStrElems xs
  | .vObj _ => "[object Object]"

def jsToStrElems : List JVal → String
  | [] => ""
  | [x] => jsToStrElem x
  | x :: xs => jsToStrElem x ++ "," ++ jsToStrElems xs
termination_by structural v => v

def jsToStrElem : JVal → String
  | .vUndef => ""
  | .vNull => ""
  | .vBool b => if b then "true" else "false"
  | .vNum n => toString n
  | .vStr s => s
  | .vArr xs => jsToStrElems xs
  | .vObj _ => "[object Object]"
termination_by structural v => v

end

mutual

/-- `JSON.stringify` on an embedded value.  The source calls
`JSON.stringify(result, null, 2)`; pretty-printing whitespace is elided
here (no claim depends on it) and the embedded string content is emitted
without escape processing. -/
def jsonStringify : JVal → String
  | .vUndef => "null"
  | .vNull => "null"
  | .vBool b => if b then "true" else "false"
  | .vNum n => toString n
  | .vStr s => "\"" ++ s ++ "\""
  | .vArr xs => "[" ++ jsonStringifyElems xs ++ "]"
  | .vObj fs => "\x7b" ++ jsonStringifyFields fs ++ "\x7d"
termination_by structural v => v

def jsonStringifyElems : List JVal → String
  | [] => ""
  | [x] => jsonStringify x
  | x :: xs => jsonStringify x ++ "," ++ jsonStringifyElems xs
termination_by structural v => v

def jsonStringifyFields : List (String × JVal) → String
  | [] => ""
  | [(k, v)] => "\"" ++ k ++ "\":" ++ jsonStringify v
  | (k, v) :: fs =>
      "\"" ++ k ++ "\":" ++ jsonStringify v ++ "," ++ jsonStringifyFields fs
termination_by structural v => v

end

/-!
## External collaborators

Environment variables and the external services (Pinecone SDK client,
Notion HTTP API, axios POSTs issued by the MCP server handlers) are
collaborators outside the repository; they are supplied as an `Env`
record.  An async call that can reject is `Except String` (the `String`
is `err.message`).  Per the Pinecone SDK's typed contract, `index.query`
resolves to a record whose `matches` field is an optional array, embedded
as `Option (List JVal)`; `index.upsert` resolves to a value the source
discards.
-/

structure Env where
  /-- `process.env.UNI_ADAPTER_WEB_URL` (mcpServer.js). -/
  baseUrl : Option String
  /-- `process.env.PINECONE_INDEX_NAME` as read by pineconeService
  (`vStr` when set, `vUndef` when unset). -/
  pineconeDefaultIndex : JVal
  /-- `pc.index(name).query({vector, topK, ...filter})`: takes the resolved
  index name, the vector, the effective topK and the filter; resolves to
  the `matches` field of the SDK response (`none` when absent). -/
  pineconeQuery : JVal → List JVal → JVal → JVal → Except String (Option (List JVal))
  /-- `pc.index(name).upsert({vectors})`: takes the resolved index name and
  the mapped vector records; the source ignores the resolved value. -/
  pineconeUpsert : JVal → List JVal → Except String Unit
  /-- `process.env.NOTION_API_KEY` (notionService.js). -/
  notionApiKey : Option String
  /-- `notionClient.get(/pages/pageId)` resolving to `res.data`. -/
  notionFetch : JVal → Except String JVal
  /-- `axios.post(url, body)` resolving to `response.data`, as issued by
  the mcpServer.js tool handlers against the universal-adapter web API. -/
  httpPost : String → JVal → Except String JVal

/-!
## pineconeService (src/unnamed/part_000)
-/

/-- The effective index name `indexName || defaultIndexName` used by both
pineconeService functions. -/
def effIndexName (env : Env) (indexName : JVal) : JVal :=
  jsOrV indexName env.pineconeDefaultIndex

/-- The default parameter `topK = 5` of `queryVectors` (JavaScript default
parameters replace only `undefined`). -/
def effTopK (topK : JVal) : JVal :=
  match topK with
  | .vUndef => .vNum 5
  | v => v

/-- `queryVectors(vector, topK = 5, indexName, filter)` from
pineconeService: resolves the index name (throwing when neither argument
nor environment provides one), queries the index, and returns
`{ok: true, matches: result.matches || []}`. -/
def queryVectors (env : Env) (vector : List JVal) (topK indexName filter : JVal) :
    Except String JVal :=
  let name := effIndexName env indexName
  if truthy name = false then
    Except.error "No index name provided and PINECONE_INDEX_NAME not set"
  else
    match env.pineconeQuery name vector (effTopK topK) filter with
    | Except.error e => Except.error e
    | Except.ok ms =>
        Except.ok (vObj [("ok", vBool true), ("matches", vArr (ms.getD []))])

/-- The per-vector record `{id: v.id, values: v.values, metadata: v.metadata || {}}`
built by `upsertVectors`. -/
def normVector (v : JVal) : JVal :=
  vObj [("id", getFD v "id"), ("values", getFD v "values"),
        ("metadata", jsOrV (getFD v "metadata") (vObj []))]

/-- `upsertVectors(vectors, indexName)` from pineconeService: resolves the
index name, upserts the mapped vectors, and returns
`{ok: true, count: vectors.length}`. -/
def upsertVectors (env : Env) (vectors : List JVal) (indexName : JVal) :
    Except String JVal :=
  let name := effIndexName env indexName
  if truthy name = false then
    Except.error "No index name provided and PINECONE_INDEX_NAME not set"
  else
    match env.pineconeUpsert name (vectors.map normVector) with
    | Except.error e => Except.error e
    | Except.ok _ =>
        Except.ok (vObj [("ok", vBool true), ("count", vNum vectors.length)])

/-!
## notionService (src/src/services/notionService.js)
-/

/-- `getPage(pageId)`: throws when `NOTION_API_KEY` is unset, otherwise
fetches `/pages/pageId` and returns the response data. -/
def getPage (env : Env) (pageId : JVal) : Except String JVal :=
  match env.notionApiKey with
  | none => Except.error "NOTION_API_KEY not configured"
  | some _ => env.notionFetch pageId

/-!
## webServer tool router (src/src/services/webServer.js, duplicate src/unnamed/part_001)

The `tools` object has three async entries; each destructures its
arguments, performs its guard, calls the service, and wraps the result as
`{content: [{type: "text", text: JSON.stringify(result, null, 2)}]}`.
A `throw` is an `Except.error`.
-/

/-- The wrapping `{content: [{type: "text", text: JSON.stringify(r, null, 2)}]}`
shared by every tool. -/
def wrapContent (r : JVal) : JVal :=
  vObj [("content",
    vArr [vObj [("type", vStr "text"), ("text", vStr (jsonStringify r))]])]

/-- `tools.pinecone_query(args)`: requires `Array.isArray(vector)`, then
calls `queryVectors(vector, topK, indexName, filter)` and wraps the
result. -/
def tools_pinecone_query (env : Env) (args : JVal) : Except String JVal :=
  match getFD args "vector" with
  | .vArr xs =>
      match queryVectors env xs (getFD args "topK") (getFD args "indexName")
          (getFD args "filter") with
      | Except.error e => Except.error e
      | Except.ok result => Except.ok (wrapContent result)
  | _ => Except.error "vector must be an array of numbers"

/-- `tools.pinecone_upsert(args)`: requires `Array.isArray(vectors)`, then
calls `upsertVectors(vectors, indexName)` and wraps the result. -/
def tools_pinecone_upsert (env : Env) (args : JVal) : Except String JVal :=
  match getFD args "vectors" with
  | .vArr xs =>
      match upsertVectors env xs (getFD args "indexName") with
      | Except.error e => Except.error e
      | Except.ok result => Except.ok (wrapContent result)
  | _ => Except.error "vectors must be an array"

/-- `tools.notion_get_page(args)`: requires a truthy `pageId`, then calls
`getPage(pageId)` and wraps the page. -/
def tools_notion_get_page (env : Env) (args : JVal) : Except String JVal :=
  let pageId := getFD args "pageId"
  if truthy pageId = false then Except.error "pageId is required"
  else
    match getPage env pageId with
    | Except.error e => Except.error e
    | Except.ok page => Except.ok (wrapContent page)

/-- Lookup `tools[name]` followed by the call `tool(args)`: `none` when
the key is not one of the three tool entries. -/
def runTool (env : Env) (name : String) (args : JVal) :
    Option (Except String JVal) :=
  match name with
  | "pinecone_query" => some (tools_pinecone_query env args)
  | "pinecone_upsert" => some (tools_pinecone_upsert env args)
  | "notion_get_page" => some (tools_notion_get_page env args)
  | _ => none

/-- An express response: status code (200 for `res.json(x)`) and JSON
body. -/
structure HttpResponse where
  status : Nat
  body : JVal
deriving DecidableEq

/-- The `POST /mcp/tools/call` handler: destructures `req.body || {}`,
rejects a falsy `name` with 400, an unknown tool with 404, wraps a tool
`throw` as 500 `{error: message}`, and otherwise responds with the tool's
result.  Total over every request body and every adapter behaviour: every
`throw` inside the handler body is caught by its `try/catch`. -/
def mcpToolsCall (env : Env) (reqBody : JVal) : HttpResponse :=
  let body := jsOrV reqBody (vObj [])
  let name := getFD body "name"
  let args := getFD body "arguments"
  if truthy name = false then
    ⟨400, vObj [("error", vStr "Missing \"name\" in request body")]⟩
  else
    match runTool env (jsToStr name) (jsOrV args (vObj [])) with
    | none =>
        ⟨404, vObj [("error",
          vStr ("Tool \"" ++ jsToStr name ++ "\" not found"))]⟩
    | some (Except.ok result) => ⟨200, result⟩
    | some (Except.error e) => ⟨500, vObj [("error", vStr e)]⟩

/-!
## mcpServer SSE wiring (src/mcpServer.js)

The module keeps one mutable binding
`let transport = null` shared by all requests.  `GET /sse` overwrites it
with a fresh `SSEServerTransport`, registers `res.on("close", () =>
{ transport = null })`, and connects the MCP server (starting the
transport, which emits the SSE protocol's `endpoint` event — SDK
behaviour; the handler body itself writes no event).  `POST /messages`
answers 400 when the slot is null and otherwise forwards to the stored
transport.

`SseState.slot` is that module-level binding, identifying transports by a
number.  `SseState.opened` is ghost bookkeeping, not program state: the
identities of peers whose connections are currently open (a peer is
appended by `/sse` and leaves when its own socket closes), used to state
claims that compare the program's state against the set of live
connections.
-/

structure SseState where
  slot : Option Nat
  opened : List Nat
deriving DecidableEq

/-- The module as loaded: `let transport = null`, no connection open. -/
def sseInit : SseState := ⟨none, []⟩

/-- The event the started SSE transport sends first, per the MCP SDK's
SSE transport: an `endpoint` event pointing the client at the message
endpoint given to the constructor (`"/messages"`). -/
def endpointEvent : JVal :=
  vObj [("event", vStr "endpoint"), ("data", vStr "/messages")]

/-- The `GET /sse` handler for a fresh connection `c`: overwrites the
shared `transport` slot, records the new live peer (ghost), and connects
the server; the returned list is every event written to the new
connection during the handler (the transport start's `endpoint` event —
the repository code itself writes none). -/
def sseHandler (s : SseState) (c : Nat) : SseState × List JVal :=
  (⟨some c, s.opened ++ [c]⟩, [endpointEvent])

/-- The `res.on("close", ...)` handler of connection `c` firing: the
source sets `transport = null` unconditionally, with no reference to
which connection closed; the disconnecting peer leaves the live set
(ghost). -/
def sseClose (s : SseState) (c : Nat) : SseState :=
  ⟨none, s.opened.erase c⟩

/-- The connections that receive an outbound event: every server→client
message travels through the single stored transport, so the receiver set
is the slot's content (empty when the slot is null). -/
def broadcastReceivers (s : SseState) : List Nat :=
  s.slot.toList

/-- The peers whose connections are currently open (ghost bookkeeping). -/
def liveConnections (s : SseState) : List Nat :=
  s.opened

/-- Result of `POST /messages`: a synchronous rejection, or forwarding to
the stored transport (`transport.handlePostMessage`), which is the only
path on which an Invocation Outcome is later produced and pushed. -/
inductive MessagesResult where
  | rejected (status : Nat) (body : String)
  | forwarded (transportId : Nat)
deriving DecidableEq

/-- The `POST /messages` handler: `if (!transport) return
res.status(400).send("No active transport session")`; otherwise forward
to the stored transport. -/
def messagesHandler (s : SseState) : MessagesResult :=
  match s.slot with
  | none => MessagesResult.rejected 400 "No active transport session"
  | some t => MessagesResult.forwarded t

/-!
## mcpServer tool registrations (src/mcpServer.js)

The three `server.tool(name, {description, inputSchema}, handler)`
registrations declare zod input schemas:

* `pinecone_query`: `{vector: z.array(z.number()), topK: z.number(),
  indexName: z.string().optional(), filter: z.any().optional()}`
* `pinecone_upsert`: `{vectors: z.array(z.object({id: z.string(),
  values: z.array(z.number()), metadata: z.any().optional()})),
  indexName: z.string().optional()}`
* `notion_get_page`: `{pageId: z.string()}`

The validators below follow zod's documented semantics for these
declarations: a required field must be present with the declared type, an
`.optional()` field may be absent (`undefined`), `z.any()` accepts
anything, and unknown keys are tolerated (stripped, not an error).
-/

/-- `z.number()` acceptance. -/
def zNumberOk : JVal → Bool
  | .vNum _ => true
  | _ => false

/-- `z.string()` acceptance. -/
def zStringOk : JVal → Bool
  | .vStr _ => true
  | _ => false

/-- `z.array(z.number())` acceptance. -/
def zNumArrayOk : JVal → Bool
  | .vArr xs => xs.all zNumberOk
  | _ => false

/-- `z.string().optional()` acceptance. -/
def zOptStringOk : JVal → Bool
  | .vUndef => true
  | .vStr _ => true
  | _ => false

/-- `z.object(...)` requires the payload itself to be an object. -/
def zIsObj : JVal → Bool
  | .vObj _ => true
  | _ => false

/-- Acceptance of one element of the `vectors` array of `pinecone_upsert`:
`z.object({id: z.string(), values: z.array(z.number()),
metadata: z.any().optional()})`. -/
def zUpsertVectorOk (v : JVal) : Bool :=
  zIsObj v && zStringOk (getFD v "id") && zNumArrayOk (getFD v "values")

/-- The tool names registered on the MCP server (and, identically, the
keys of the webServer `tools` object). -/
def knownTool (name : String) : Bool :=
  name == "pinecone_query" || name == "pinecone_upsert" ||
    name == "notion_get_page"

/-- The required fields of each registered tool's declared input schema
(fields without `.optional()`; `z.any()` is optional by construction). -/
def requiredFields (name : String) : List String :=
  match name with
  | "pinecone_query" => ["vector", "topK"]
  | "pinecone_upsert" => ["vectors"]
  | "notion_get_page" => ["pageId"]
  | _ => []

/-- zod parse success of `args` against the declared input schema of
tool `name` (`false` also for unknown names). -/
def validateArgs (name : String) (args : JVal) : Bool :=
  match name with
  | "pinecone_query" =>
      zIsObj args && zNumArrayOk (getFD args "vector") &&
        zNumberOk (getFD args "topK") && zOptStringOk (getFD args "indexName")
  | "pinecone_upsert" =>
      zIsObj args &&
        (match getFD args "vectors" with
          | .vArr xs => xs.all zUpsertVectorOk
          | _ => false) &&
        zOptStringOk (getFD args "indexName")
  | "notion_get_page" => zIsObj args && zStringOk (getFD args "pageId")
  | _ => false

/-!
## MCP tool dispatch (src/mcpServer.js handlers behind the SDK)

An MCP `tools/call` on the SSE server resolves the registered tool,
validates the arguments against the declared zod schema, and runs the
registered handler; the SDK converts an unknown tool and a failed parse
into error results, and a handler rejection into an error result,
without crashing the server.  The two library-generated error message
texts below are modelled (their exact wording belongs to the SDK/zod);
everything else follows the registrations in src/mcpServer.js.

Each handler checks `baseUrl` (`UNI_ADAPTER_WEB_URL`), POSTs the
destructured arguments to the universal-adapter web API, and wraps
`response.data` as a text content block.
-/

/-- An Invocation Outcome: `success` with the handler's payload, or
`error` with a message. -/
inductive Outcome where
  | success (payload : JVal)
  | error (msg : String)
deriving DecidableEq

/-- The registered MCP handler bodies (src/mcpServer.js), keyed by tool
name; only called on registered names. -/
def mcpHandler (env : Env) (name : String) (args : JVal) :
    Except String JVal :=
  match env.baseUrl with
  | none => Except.error "UNI_ADAPTER_WEB_URL is not set"
  | some b =>
      match name with
      | "pinecone_query" =>
          match env.httpPost (b ++ "/api/pinecone/search")
              (vObj [("vector", getFD args "vector"),
                     ("topK", getFD args "topK"),
                     ("indexName", getFD args "indexName"),
                     ("filter", getFD args "filter")]) with
          | Except.error e => Except.error e
          | Except.ok data => Except.ok (wrapContent data)
      | "pinecone_upsert" =>
          match env.httpPost (b ++ "/api/pinecone/upsert")
              (vObj [("vectors", getFD args "vectors"),
                     ("indexName", getFD args "indexName")]) with
          | Except.error e => Except.error e
          | Except.ok data => Except.ok (wrapContent data)
      | "notion_get_page" =>
          match env.httpPost (b ++ "/api/notion/page")
              (vObj [("pageId", getFD args "pageId")]) with
          | Except.error e => Except.error e
          | Except.ok data => Except.ok (wrapContent data)
      | _ => Except.error "unknown handler"

/-- MCP `tools/call` dispatch on the SSE server: resolve, validate,
run the handler, and normalize everything into one Outcome. -/
def mcpDispatch (env : Env) (name : String) (args : JVal) : Outcome :=
  if knownTool name = false then
    Outcome.error ("tool not found: " ++ name)
  else if validateArgs name args = false then
    Outcome.error ("invalid arguments for tool " ++ name)
  else
    match mcpHandler env name args with
    | Except.ok r => Outcome.success r
    | Except.error e => Outcome.error e

/-!
## Concrete environments used to instantiate theorems
-/

/-- A fully configured environment whose external services all succeed:
the Notion page fetch and the adapter web API return `{title: "Doc"}`,
the Pinecone query returns an empty match list, the upsert resolves. -/
def envSample : Env where
  baseUrl := some "http://localhost:4000"
  pineconeDefaultIndex := vStr "default-index"
  pineconeQuery := fun _ _ _ _ => Except.ok (some [])
  pineconeUpsert := fun _ _ => Except.ok ()
  notionApiKey := some "secret"
  notionFetch := fun _ => Except.ok (vObj [("title", vStr "Doc")])
  httpPost := fun _ _ => Except.ok (vObj [("title", vStr "Doc")])

/-- Like `envSample`, but the Pinecone query response omits its `matches`
field. -/
def envNoMatches : Env :=
  { envSample with pineconeQuery := fun _ _ _ _ => Except.ok none }

/-!
## Claims about the streaming session state (src/mcpServer.js)
-/

/-- C1 counterexample: open connection 1, then connection 2, then
broadcast.  Both connections are live, but the module state holds only
connection 2, so only connection 2 receives the event and connection 1
does not; the live "set" kept by the program has one entry in total, not
one per open connection. -/
theorem C1_broadcast_counterexample :
    liveConnections ((sseHandler ((sseHandler sseInit 1).1) 2).1) = [1, 2] ∧
    broadcastReceivers ((sseHandler ((sseHandler sseInit 1).1) 2).1) = [2] ∧
    1 ∉ broadcastReceivers ((sseHandler ((sseHandler sseInit 1).1) 2).1) ∧
    (broadcastReceivers ((sseHandler ((sseHandler sseInit 1).1) 2).1)).length
      ≠ (liveConnections ((sseHandler ((sseHandler sseInit 1).1) 2).1)).length := by
  refine ⟨rfl, rfl, by decide, by decide⟩

/-- C1 (amended): an event is delivered only to the connection currently
stored in the single module-level transport slot, which after any open is
the most recently opened connection; the program state holds at most one
connection entry regardless of how many connections are live. -/
theorem C1_broadcast_amended :
    (∀ s c₁ c₂,
      broadcastReceivers ((sseHandler ((sseHandler s c₁).1) c₂).1) = [c₂] ∧
      liveConnections ((sseHandler ((sseHandler s c₁).1) c₂).1)
        = liveConnections s ++ [c₁, c₂]) ∧
    (∀ s : SseState, (broadcastReceivers s).length ≤ 1) := by
  constructor
  · intro s c₁ c₂
    refine ⟨rfl, ?_⟩
    simp [sseHandler, liveConnections]
  · intro s
    cases h : s.slot <;> simp [broadcastReceivers, h]

/-- C4: when no streaming connection is open (the transport slot is
null), `POST /messages` is rejected synchronously with the 400
"No active transport session" response, and the request is never
forwarded to a transport, so no Invocation Outcome is produced for it. -/
theorem C4_no_channel_rejected (s : SseState) (h : s.slot = none) :
    messagesHandler s = MessagesResult.rejected 400 "No active transport session" ∧
    ∀ t, messagesHandler s ≠ MessagesResult.forwarded t := by
  constructor
  · unfold messagesHandler
    rw [h]
  · intro t hc
    unfold messagesHandler at hc
    rw [h] at hc
    exact MessagesResult.noConfusion hc

/-- C4 witness: in the initial state no transport is stored and the
invocation is rejected. -/
theorem C4_no_channel_rejected_witness :
    messagesHandler sseInit = MessagesResult.rejected 400 "No active transport session" ∧
    ∀ t, messagesHandler sseInit ≠ MessagesResult.forwarded t :=
  C4_no_channel_rejected sseInit rfl

/-- C6 counterexample: on a newly opened connection the only event
written during the open is the SSE transport's `endpoint` event; no
`{type: "server_ready"}` event is written, so the first event is not
`{type: "server_ready"}`. -/
theorem C6_server_ready_counterexample :
    (sseHandler sseInit 1).2 = [endpointEvent] ∧
    endpointEvent ≠ vObj [("type", vStr "server_ready")] ∧
    vObj [("type", vStr "server_ready")] ∉ (sseHandler sseInit 1).2 := by
  refine ⟨rfl, by decide, by decide⟩

/-- C6 (amended): opening a streaming connection stores the new transport
in the shared slot and connects the server; the only event written to the
new connection is the SSE transport's `endpoint` event — the repository
emits no `{type: "server_ready"}` event. -/
theorem C6_server_ready_amended (s : SseState) (c : Nat) :
    (sseHandler s c).2 = [endpointEvent] ∧
    ∀ e ∈ (sseHandler s c).2, e ≠ vObj [("type", vStr "server_ready")] := by
  refine ⟨rfl, ?_⟩
  intro e he
  have : e = endpointEvent := by
    simpa [sseHandler] using he
  rw [this]
  decide

/-- C9: the disconnect handler sets the shared transport slot to null
unconditionally (for every state and every disconnecting connection);
concretely, after opening 1 and 2 and then 1 disconnecting, the slot is
null although 2 is still live, and a subsequent invocation is rejected
for lack of an active transport. -/
theorem C9_close_unconditional :
    (∀ (s : SseState) (c : Nat), (sseClose s c).slot = none) ∧
    (sseClose ((sseHandler ((sseHandler sseInit 1).1) 2).1) 1).slot = none ∧
    liveConnections (sseClose ((sseHandler ((sseHandler sseInit 1).1) 2).1) 1) = [2] ∧
    messagesHandler (sseClose ((sseHandler ((sseHandler sseInit 1).1) 2).1) 1)
      = MessagesResult.rejected 400 "No active transport session" := by
  exact ⟨fun s c => rfl, rfl, rfl, rfl⟩

/-!
## Helper lemmas about the tool router
-/

/-- A name outside the three `tools` keys looks up to nothing. -/
theorem runTool_eq_none_of_not_known (env : Env) (name : String) (args : JVal)
    (h : knownTool name = false) : runTool env name args = none := by
  simp only [runTool]
  split <;> simp_all [knownTool]

/-- The three `tools` keys. -/
theorem knownTool_cases (name : String) (h : knownTool name = true) :
    name = "pinecone_query" ∨ name = "pinecone_upsert" ∨
      name = "notion_get_page" := by
  simpa [knownTool, or_assoc] using h

/-- Reading the `name` field of an invocation body. -/
theorem getFD_invocation_name (name : String) (args : JVal) :
    getFD (vObj [("name", vStr name), ("arguments", args)]) "name"
      = vStr name := rfl

/-- Reading the `arguments` field of an invocation body. -/
theorem getFD_invocation_args (name : String) (args : JVal) :
    getFD (vObj [("name", vStr name), ("arguments", args)]) "arguments"
      = args := rfl

/-- Unfolding `POST /mcp/tools/call` on a well-formed invocation body
with a non-empty tool name: the response is determined by the `tools`
lookup and the call. -/
theorem mcpToolsCall_known_shape (env : Env) (name : String) (args : JVal)
    (h1 : name ≠ "") :
    mcpToolsCall env (vObj [("name", vStr name), ("arguments", args)])
      = match runTool env name (jsOrV args (vObj [])) with
        | none =>
            ⟨404, vObj [("error", vStr ("Tool \"" ++ name ++ "\" not found"))]⟩
        | some (Except.ok result) => ⟨200, result⟩
        | some (Except.error e) => ⟨500, vObj [("error", vStr e)]⟩ := by
  have hb : jsOrV (vObj [("name", vStr name), ("arguments", args)]) (vObj [])
      = vObj [("name", vStr name), ("arguments", args)] := rfl
  have ht : truthy (vStr name) = true := by
    simp [truthy, h1]
  simp only [mcpToolsCall, hb, getFD_invocation_name, getFD_invocation_args,
    ht, Bool.true_eq_false, if_false, jsToStr]

/-!
## Claims about the tool dispatcher (`POST /mcp/tools/call`)
-/

/-- C2: `dispatch` never throws and always terminates in exactly one
Invocation Outcome: `mcpToolsCall` is a total function — over every
request body (known/unknown tool, valid/invalid arguments) and every
adapter behaviour (`env` ranges over succeeding and failing adapters) it
returns exactly one response, which is either a success (200, carrying
the tool result) or an error (400/404/500, carrying an `{error: string}`
payload). -/
theorem C2_dispatch_total (env : Env) (reqBody : JVal) :
    (mcpToolsCall env reqBody).status = 200 ∨
    (((mcpToolsCall env reqBody).status = 400 ∨
      (mcpToolsCall env reqBody).status = 404 ∨
      (mcpToolsCall env reqBody).status = 500) ∧
     ∃ m, getField (mcpToolsCall env reqBody).body "error" = some (vStr m)) := by
  simp only [mcpToolsCall]
  split
  · exact Or.inr ⟨Or.inl rfl, _, rfl⟩
  · split
    · exact Or.inr ⟨Or.inr (Or.inl rfl), _, rfl⟩
    · exact Or.inl rfl
    · exact Or.inr ⟨Or.inr (Or.inr rfl), _, rfl⟩

/-- C3 counterexample: invoking the unregistered tool name `"foo_bar"`
produces the 404 error payload `Tool "foo_bar" not found`, which is not
the payload `unknown tool: foo_bar` stated by the claim. -/
theorem C3_unknown_tool_counterexample :
    mcpToolsCall envSample (vObj [("name", vStr "foo_bar"), ("arguments", vObj [])])
      = ⟨404, vObj [("error", vStr "Tool \"foo_bar\" not found")]⟩ ∧
    getField (mcpToolsCall envSample
        (vObj [("name", vStr "foo_bar"), ("arguments", vObj [])])).body "error"
      ≠ some (vStr "unknown tool: foo_bar") := by
  exact ⟨rfl, by decide⟩

/-- C3 (amended): for every invocation naming a tool not present in the
registry, dispatch produces an error Outcome — an HTTP 404 whose payload
is `Tool "<name>" not found` (not `unknown tool: <name>`). -/
theorem C3_unknown_tool_amended (env : Env) (name : String) (args : JVal)
    (h1 : name ≠ "") (h2 : knownTool name = false) :
    mcpToolsCall env (vObj [("name", vStr name), ("arguments", args)])
      = ⟨404, vObj [("error", vStr ("Tool \"" ++ name ++ "\" not found"))]⟩ := by
  rw [mcpToolsCall_known_shape env name args h1,
    runTool_eq_none_of_not_known env name _ h2]

/-- C3 witness: the amended statement at the concrete unknown name
`"foo_bar"`. -/
theorem C3_unknown_tool_amended_witness :
    mcpToolsCall envSample (vObj [("name", vStr "foo_bar"), ("arguments", vObj [])])
      = ⟨404, vObj [("error", vStr ("Tool \"" ++ "foo_bar" ++ "\" not found"))]⟩ :=
  C3_unknown_tool_amended envSample "foo_bar" (vObj []) (by decide) (by decide)

/-- C7 counterexample: an accepted, successful invocation of
`notion_get_page` is answered by a single HTTP 200 whose body is the
tool result itself (the wrapped `{title: "Doc"}` content block) — the
response is not the acknowledgment `{ok: true}` and carries no `ok`
field at all, so the result is not delivered as a separate pushed
event. -/
theorem C7_two_phase_counterexample :
    mcpToolsCall envSample (vObj [("name", vStr "notion_get_page"),
        ("arguments", vObj [("pageId", vStr "abc123")])])
      = ⟨200, wrapContent (vObj [("title", vStr "Doc")])⟩ ∧
    (mcpToolsCall envSample (vObj [("name", vStr "notion_get_page"),
        ("arguments", vObj [("pageId", vStr "abc123")])])).body
      ≠ vObj [("ok", vBool true)] ∧
    getField (mcpToolsCall envSample (vObj [("name", vStr "notion_get_page"),
        ("arguments", vObj [("pageId", vStr "abc123")])])).body "ok" = none := by
  exact ⟨rfl, by decide, rfl⟩

/-- C7 (amended): for every invocation whose tool call succeeds, the
`/mcp/tools/call` response is the single HTTP 200 exchange whose body is
the tool's result itself; the invocation call and the result delivery are
one request/response pair, with no `{ok: true}` acknowledgment and no
separate push delivery. -/
theorem C7_two_phase_amended (env : Env) (name : String) (args r : JVal)
    (h1 : name ≠ "")
    (h2 : runTool env name (jsOrV args (vObj [])) = some (Except.ok r)) :
    mcpToolsCall env (vObj [("name", vStr name), ("arguments", args)])
      = ⟨200, r⟩ := by
  rw [mcpToolsCall_known_shape env name args h1, h2]

/-- C7 witness: the amended statement at the successful concrete
invocation of `notion_get_page`. -/
theorem C7_two_phase_amended_witness :
    mcpToolsCall envSample (vObj [("name", vStr "notion_get_page"),
        ("arguments", vObj [("pageId", vStr "abc123")])])
      = ⟨200, wrapContent (vObj [("title", vStr "Doc")])⟩ :=
  C7_two_phase_amended envSample "notion_get_page"
    (vObj [("pageId", vStr "abc123")])
    (wrapContent (vObj [("title", vStr "Doc")])) (by decide) rfl

/-!
## Claim about schema validation (C5)
-/

/-- C5: (1) invoking `notion_get_page` with `{}` yields the error Outcome
`pageId is required` (HTTP 500 from the web tool router, whose guard
produces exactly that field-missing message); (2) on the MCP server, any
payload missing a required field of a tool's declared zod schema fails
validation; (3) any payload supplying every required field with the
declared type — extra unknown fields tolerated — dispatches to a success
Outcome whenever the adapter succeeds; (4) in particular, a valid
`notion_get_page` payload with the adapter returning `{title: "Doc"}`
yields the success Outcome wrapping `{title: "Doc"}`. -/
theorem C5_schema_validation :
    (∀ env : Env,
      mcpToolsCall env (vObj [("name", vStr "notion_get_page"), ("arguments", vObj [])])
        = ⟨500, vObj [("error", vStr "pageId is required")]⟩) ∧
    (∀ (name : String) (args : JVal) (f : String),
      knownTool name = true → f ∈ requiredFields name →
      getField args f = none → validateArgs name args = false) ∧
    (∀ (env : Env) (name : String) (args : JVal),
      knownTool name = true → validateArgs name args = true →
      (∀ u p, ∃ d, env.httpPost u p = Except.ok d) →
      env.baseUrl.isSome = true →
      ∃ d, mcpDispatch env name args = Outcome.success (wrapContent d)) ∧
    (∀ (env : Env) (b : String) (args r : JVal),
      env.baseUrl = some b →
      validateArgs "notion_get_page" args = true →
      env.httpPost (b ++ "/api/notion/page")
          (vObj [("pageId", getFD args "pageId")]) = Except.ok r →
      mcpDispatch env "notion_get_page" args
        = Outcome.success (wrapContent r)) := by
  refine ⟨fun env => rfl, ?_, ?_, ?_⟩
  · intro name args f hknown hf hnone
    rcases knownTool_cases name hknown with h | h | h <;> subst h
    · simp only [requiredFields, List.mem_cons, List.not_mem_nil, or_false] at hf
      rcases hf with hf | hf <;> subst hf <;>
        simp [validateArgs, getFD, hnone, zNumArrayOk, zNumberOk]
    · simp only [requiredFields, List.mem_cons, List.not_mem_nil, or_false] at hf
      subst hf
      simp [validateArgs, getFD, hnone]
    · simp only [requiredFields, List.mem_cons, List.not_mem_nil, or_false] at hf
      subst hf
      simp [validateArgs, getFD, hnone, zStringOk]
  · intro env name args hknown hvalid hpost hbase
    rcases Option.isSome_iff_exists.mp hbase with ⟨b, hb⟩
    rcases knownTool_cases name hknown with h | h | h <;> subst h <;>
      simp only [mcpDispatch, mcpHandler, hknown, Bool.true_eq_false, if_false,
        hvalid, hb] <;>
      [rcases hpost (b ++ "/api/pinecone/search")
          (vObj [("vector", getFD args "vector"), ("topK", getFD args "topK"),
                 ("indexName", getFD args "indexName"),
                 ("filter", getFD args "filter")]) with ⟨d, hd⟩;
       rcases hpost (b ++ "/api/pinecone/upsert")
          (vObj [("vectors", getFD args "vectors"),
                 ("indexName", getFD args "indexName")]) with ⟨d, hd⟩;
       rcases hpost (b ++ "/api/notion/page")
          (vObj [("pageId", getFD args "pageId")]) with ⟨d, hd⟩] <;>
      rw [hd] <;> exact ⟨d, rfl⟩
  · intro env b args r hb hvalid hpost
    simp only [mcpDispatch, mcpHandler, hvalid, hb, hpost]
    rfl

/-- C5 witness: `notion_get_page` with `{}` is rejected with the exact
message and fails schema validation; with `{pageId: "abc123"}` plus an
extra unknown field and an adapter returning `{title: "Doc"}`, dispatch
yields the success Outcome wrapping `{title: "Doc"}`. -/
theorem C5_schema_validation_witness :
    mcpToolsCall envSample (vObj [("name", vStr "notion_get_page"), ("arguments", vObj [])])
      = ⟨500, vObj [("error", vStr "pageId is required")]⟩ ∧
    validateArgs "notion_get_page" (vObj []) = false ∧
    mcpDispatch envSample "notion_get_page"
        (vObj [("pageId", vStr "abc123"), ("extra", vNum 1)])
      = Outcome.success (wrapContent (vObj [("title", vStr "Doc")])) :=
  ⟨C5_schema_validation.1 envSample,
   C5_schema_validation.2.1 "notion_get_page" (vObj []) "pageId"
     (by decide) (by decide) rfl,
   C5_schema_validation.2.2.2 envSample "http://localhost:4000"
     (vObj [("pageId", vStr "abc123"), ("extra", vNum 1)])
     (vObj [("title", vStr "Doc")]) rfl (by decide) rfl⟩

/-!
## Claims about the Pinecone service (src/unnamed/part_000)
-/

/-- C8: whenever `upsertVectors` succeeds, the returned record is
`{ok: true, count: vectors.length}`; in particular its `count` field
equals the length of the input vector list. -/
theorem C8_upsert_count (env : Env) (vectors : List JVal) (indexName : JVal)
    (r : JVal) (h : upsertVectors env vectors indexName = Except.ok r) :
    r = vObj [("ok", vBool true), ("count", vNum vectors.length)] ∧
    getField r "count" = some (vNum vectors.length) := by
  simp only [upsertVectors] at h
  split at h
  · exact absurd h (by simp)
  · split at h
    · exact absurd h (by simp)
    · rw [Except.ok.injEq] at h
      subst h
      exact ⟨rfl, rfl⟩

/-- C8 witness: upserting two vectors against the sample environment
succeeds with `count = 2`. -/
theorem C8_upsert_count_witness :
    vObj [("ok", vBool true), ("count", vNum 2)]
        = vObj [("ok", vBool true),
            ("count", vNum ([vObj [("id", vStr "a"), ("values", vArr [vNum 1])],
                vObj [("id", vStr "b"), ("values", vArr [vNum 2])]] : List JVal).length)] ∧
    getField (vObj [("ok", vBool true), ("count", vNum 2)]) "count"
        = some (vNum ([vObj [("id", vStr "a"), ("values", vArr [vNum 1])],
            vObj [("id", vStr "b"), ("values", vArr [vNum 2])]] : List JVal).length) :=
  C8_upsert_count envSample
    [vObj [("id", vStr "a"), ("values", vArr [vNum 1])],
     vObj [("id", vStr "b"), ("values", vArr [vNum 2])]] vUndef
    (vObj [("ok", vBool true), ("count", vNum 2)]) rfl

/-- C10: `queryVectors` with `topK` omitted behaves exactly as with
`topK = 5`; every successful call returns a record whose `ok` field is
`true` and whose `matches` field is an array; and when the upstream
response has no `matches` field, the returned `matches` is the empty
array. -/
theorem C10_query_defaults :
    (∀ (env : Env) (v : List JVal) (idx f : JVal),
      queryVectors env v vUndef idx f = queryVectors env v (vNum 5) idx f) ∧
    (∀ (env : Env) (v : List JVal) (k idx f r : JVal),
      queryVectors env v k idx f = Except.ok r →
      getField r "ok" = some (vBool true) ∧
      ∃ xs, getField r "matches" = some (vArr xs)) ∧
    (∀ (env : Env) (v : List JVal) (k idx f : JVal),
      truthy (effIndexName env idx) = true →
      env.pineconeQuery (effIndexName env idx) v (effTopK k) f = Except.ok none →
      queryVectors env v k idx f
        = Except.ok (vObj [("ok", vBool true), ("matches", vArr [])])) := by
  refine ⟨fun env v idx f => rfl, ?_, ?_⟩
  · intro env v k idx f r h
    simp only [queryVectors] at h
    split at h
    · exact absurd h (by simp)
    · split at h
      · exact absurd h (by simp)
      · rw [Except.ok.injEq] at h
        subst h
        exact ⟨rfl, _, rfl⟩
  · intro env v k idx f htruthy hq
    simp only [queryVectors, htruthy, Bool.true_eq_false, if_false]
    rw [hq]
    rfl

/-- C10 witness: querying with `topK` omitted against an environment
whose upstream response omits `matches` yields
`{ok: true, matches: []}`, whose `ok` is `true` and whose `matches` is
an array. -/
theorem C10_query_defaults_witness :
    (queryVectors envNoMatches [vNum 1] vUndef vUndef vUndef
      = Except.ok (vObj [("ok", vBool true), ("matches", vArr [])])) ∧
    getField (vObj [("ok", vBool true), ("matches", vArr [])]) "ok"
      = some (vBool true) ∧
    ∃ xs, getField (vObj [("ok", vBool true), ("matches", vArr [])]) "matches"
      = some (vArr xs) := by
  refine ⟨C10_query_defaults.2.2 envNoMatches [vNum 1] vUndef vUndef vUndef
    (by decide) rfl, ?_⟩
  exact C10_query_defaults.2.1 envNoMatches [vNum 1] vUndef vUndef vUndef _
    (C10_query_defaults.2.2 envNoMatches [vNum 1] vUndef vUndef vUndef
      (by decide) rfl)
